import Mathlib

/-!
Verification of the scene-lifecycle controller of the game-engine repository.

The development shallowly embeds the two components the specification talks
about:

* the class SceneManager (file src/unnamed/part_000, lines 1-164): a registry
  of exclusively owned, possibly null scene pointers plus an active index,
  with transition operations registerScene, switchToScene, switchToNextScene,
  switchToPreviousScene, getCurrentScene, update, and the private activation
  procedure activateScene;

* the class BulletPhysicsScene (file src/unnamed/part_000, lines 166-486):
  a concrete scene whose lifecycle operations guard on an isInitialized flag.

Scenes are opaque collaborators: the controller only calls their lifecycle
operations, which may raise a fault that the controller catches.  A scene is
therefore modelled by a state type sigma together with a record of behaviour
functions (SceneOps); a lifecycle call returns the new scene state and a
Boolean that is true exactly when the C++ call would have thrown.  The C++
init member function is called initialize in the source; it is named init
here.  Since the embedding is a total function, the fact that no exception
ever propagates out of a controller operation is captured by totality itself.

Every controller operation additionally returns a trace of events recording
which lifecycle calls were invoked on which registry index and which
defensive branches fired, so that claims of the form "cleanup/init is not
invoked" or "the defensive branch is never taken" are directly statable.
-/

/-- Events observable during one controller operation: a cleanup call on the
scene at a given index, an init call on the scene at a given index, the
defensive reset of an out-of-bounds current index in switchToNextScene
(part_000 lines 36-40), and the forced activation of index 0 when the
computed next index is found out of bounds (part_000 lines 47-52). -/
inductive Ev where
  | cleanupEv : Nat → Ev
  | initEv : Nat → Ev
  | resetEv : Ev
  | forceZeroEv : Ev
deriving DecidableEq

/-- Behaviour of a scene collaborator with state type sigma.  The Boolean
result of init and cleanup is true exactly when the C++ call raises a fault
(throws); the returned state is the state of the scene object after the
(possibly partial, in the faulting case) execution of the call. -/
structure SceneOps (σ : Type) where
  init : σ → σ × Bool
  cleanup : σ → σ × Bool
  update : σ → σ

/-- State of the SceneManager: the registry (an ordered list of owned scene
slots; a slot holds none for a null pointer, which registerScene rejects but
the defensive checks in the source still test for) and the active index. -/
structure SceneManager (σ : Type) where
  scenes : List (Option σ)
  currentSceneIndex : Nat
deriving DecidableEq

/-- Modelled from the spec: the initial value of currentSceneIndex is
declared in scene_manager.hpp, which is not among the provided sources.  The
spec (section 3, Active index) states the sentinel "none active" state is
modelled as an out-of-range value; SIZE_MAX of a 64-bit size_t is used. -/
def kNoneIndex : Nat := 2 ^ 64 - 1

/-- Modelled from the spec: a freshly constructed controller has an empty
registry and the out-of-range sentinel as active index (spec section 3). -/
def SceneManager.empty (σ : Type) : SceneManager σ :=
  { scenes := [], currentSceneIndex := kNoneIndex }

/-- Second half of the activation procedure, part_000 lines 127-161: after
the active index has been updated to the new index, invoke init on the new
scene (if the slot is non-null); on a fault, report, force the index to 0
(registry known non-empty) and invoke init on slot 0 too, swallowing a
second fault.  The evs argument is the trace accumulated by the first half. -/
def initPhase {σ : Type} (ops : SceneOps σ) (m : SceneManager σ) (index : Nat)
    (evs : List Ev) : SceneManager σ × List Ev :=
  match m.scenes.get? index with
  | some (some sNew) =>
      let ri := ops.init sNew
      let scenes1 := m.scenes.set index (some ri.1)
      if ri.2 then
        if scenes1.isEmpty then
          ({ m with scenes := scenes1 }, evs ++ [Ev.initEv index])
        else
          match scenes1.get? 0 with
          | some (some s0) =>
              let r0 := ops.init s0
              ({ m with scenes := scenes1.set 0 (some r0.1), currentSceneIndex := 0 },
                evs ++ [Ev.initEv index, Ev.initEv 0])
          | _ =>
              ({ m with scenes := scenes1, currentSceneIndex := 0 },
                evs ++ [Ev.initEv index])
      else
        ({ m with scenes := scenes1 }, evs ++ [Ev.initEv index])
  | _ => (m, evs)

/-- Activation procedure, part_000 lines 94-162.  Out-of-bounds index:
report and abort.  Same index: no-op.  Otherwise cleanup the old scene if
its slot is in bounds and non-null, aborting the transition (index
unchanged) if cleanup faults; only then update the index and run the init
phase. -/
def activateScene {σ : Type} (ops : SceneOps σ) (m : SceneManager σ) (index : Nat) :
    SceneManager σ × List Ev :=
  if index ≥ m.scenes.length then
    (m, [])
  else if index = m.currentSceneIndex then
    (m, [])
  else
    match m.scenes.get? m.currentSceneIndex with
    | some (some sOld) =>
        let rc := ops.cleanup sOld
        let scenes1 := m.scenes.set m.currentSceneIndex (some rc.1)
        if rc.2 then
          ({ m with scenes := scenes1 }, [Ev.cleanupEv m.currentSceneIndex])
        else
          initPhase ops { m with scenes := scenes1, currentSceneIndex := index }
            index [Ev.cleanupEv m.currentSceneIndex]
    | _ =>
        initPhase ops { m with currentSceneIndex := index } index []

/-- Operation registerScene, part_000 lines 9-20: reject a null scene,
append, and if the registry size became 1 activate index 0. -/
def registerScene {σ : Type} (ops : SceneOps σ) (m : SceneManager σ)
    (scene : Option σ) : SceneManager σ × List Ev :=
  match scene with
  | none => (m, [])
  | some s =>
      let m1 := { m with scenes := m.scenes ++ [some s] }
      if m1.scenes.length = 1 then activateScene ops m1 0 else (m1, [])

/-- Operation switchToScene, part_000 lines 22-28: out-of-bounds index is a
silent no-op, otherwise activate. -/
def switchToScene {σ : Type} (ops : SceneOps σ) (m : SceneManager σ)
    (index : Nat) : SceneManager σ × List Ev :=
  if index ≥ m.scenes.length then (m, []) else activateScene ops m index

/-- Operation switchToNextScene, part_000 lines 30-55: no-op on an empty
registry; defensively reset an out-of-bounds current index to 0 (reported,
traced as resetEv); compute (current + 1) mod size; if that were somehow out
of bounds, force activation of 0 (traced as forceZeroEv); else activate it. -/
def switchToNextScene {σ : Type} (ops : SceneOps σ) (m : SceneManager σ) :
    SceneManager σ × List Ev :=
  if m.scenes.isEmpty then (m, [])
  else
    let cur := if m.currentSceneIndex ≥ m.scenes.length then 0 else m.currentSceneIndex
    let resetEvs : List Ev :=
      if m.currentSceneIndex ≥ m.scenes.length then [Ev.resetEv] else []
    let m1 := { m with currentSceneIndex := cur }
    let nextIndex := (cur + 1) % m1.scenes.length
    if nextIndex ≥ m1.scenes.length then
      let r := activateScene ops m1 0
      (r.1, resetEvs ++ [Ev.forceZeroEv] ++ r.2)
    else
      let r := activateScene ops m1 nextIndex
      (r.1, resetEvs ++ r.2)

/-- Operation switchToPreviousScene, part_000 lines 57-66: no-op on an empty
registry; previous index is size - 1 when the current index is 0, else
current - 1; always invoke the activation procedure on it. -/
def switchToPreviousScene {σ : Type} (ops : SceneOps σ) (m : SceneManager σ) :
    SceneManager σ × List Ev :=
  if m.scenes.isEmpty then (m, [])
  else
    let prevIndex :=
      if m.currentSceneIndex = 0 then m.scenes.length - 1 else m.currentSceneIndex - 1
    activateScene ops m prevIndex

/-- Operation getCurrentScene, part_000 lines 68-80: null when the current
index is out of bounds, else the (possibly null) pointer in the slot. -/
def getCurrentScene {σ : Type} (m : SceneManager σ) : Option σ :=
  if m.currentSceneIndex ≥ m.scenes.length then none
  else (m.scenes.get? m.currentSceneIndex).join

/-- Operation update, part_000 lines 82-86: forward to the current scene
when one is active, mutating its state in place; no-op otherwise. -/
def updateManager {σ : Type} (ops : SceneOps σ) (m : SceneManager σ) :
    SceneManager σ :=
  if m.currentSceneIndex ≥ m.scenes.length then m
  else
    match m.scenes.get? m.currentSceneIndex with
    | some (some s) =>
        { m with scenes := m.scenes.set m.currentSceneIndex (some (ops.update s)) }
    | _ => m

/-- Iterated switchToNextScene, dropping the traces: the state after n calls. -/
def switchNextN {σ : Type} (ops : SceneOps σ) (m : SceneManager σ) : Nat → SceneManager σ
  | 0 => m
  | n + 1 => (switchToNextScene ops (switchNextN ops m n)).1

/-- Concrete scene behaviour whose lifecycle calls never fault, for witnesses. -/
def okOps : SceneOps Unit :=
  { init := fun s => (s, false), cleanup := fun s => (s, false), update := id }

/-- Concrete scene behaviour whose init always faults, for witnesses. -/
def badInitOps : SceneOps Unit :=
  { init := fun s => (s, true), cleanup := fun s => (s, false), update := id }

/-- Concrete scene behaviour whose cleanup always faults, for witnesses. -/
def badCleanupOps : SceneOps Unit :=
  { init := fun s => (s, false), cleanup := fun s => (s, true), update := id }

/-- Concrete controller with one registered scene, active index 0, for witnesses. -/
def mgr1 : SceneManager Unit := { scenes := [some ()], currentSceneIndex := 0 }

/-- Concrete controller with two registered scenes, active index 0, for witnesses. -/
def mgr2 : SceneManager Unit := { scenes := [some (), some ()], currentSceneIndex := 0 }

/-!
Embedding of BulletPhysicsScene, part_000 lines 166-486.  The calls into the
rendering and physics engines (raylib, Bullet) are external collaborators per
the spec (section 1); their results are supplied by an opaque environment
record, and engine-side effects with no trace in the scene object (unloading
a model, stepping the world) are identities on the embedded state.  Engine
handles (Model values, Bullet pointers) are opaque Nat tokens, allocation
flags are Booleans mirroring the null checks of the source.  Float-valued
geometry (positions, inertia, extents) has no observable effect on the
lifecycle state and is not represented.
-/

/-- One entry of the physicsObjects vector (header in part_002): Bullet
handles as allocation flags, the raylib model token and its validity flag,
and a colour token. -/
structure PhysicsObject where
  rigidBody : Bool
  collisionShape : Bool
  motionState : Bool
  model : Nat
  hasModel : Bool
  color : Nat
deriving DecidableEq

/-- State of BulletPhysicsScene (header in part_002): the five Bullet world
component pointers as allocation flags, the owned physics objects, the
ground model token with its validity flag, and the isInitialized guard. -/
structure BulletPhysicsScene where
  dynamicsWorld : Bool
  dispatcher : Bool
  overlappingPairCache : Bool
  constraintSolver : Bool
  collisionConfiguration : Bool
  physicsObjects : List PhysicsObject
  groundModel : Nat
  hasGroundModel : Bool
  isInitialized : Bool
deriving DecidableEq

/-- Results of the external engine calls made during scene setup: the model
token loaded for the ground cube and its IsModelValid result, the model
token and validity for the falling box of each boxIndex, and the colour
token ColorFromHSV yields for each boxIndex. -/
structure RenderEnv where
  groundModel : Nat
  groundModelValid : Bool
  boxModel : Nat → Nat
  boxModelValid : Nat → Bool
  colorFromHSV : Nat → Nat

/-- Opaque token for the raylib colour constant DARKGREEN. -/
def kDarkGreen : Nat := 0

/-- Helper setupPhysicsWorld, part_000 lines 223-247: allocates the five
Bullet world components (gravity is engine-internal, not represented). -/
def BulletPhysicsScene.setupPhysicsWorld (s : BulletPhysicsScene) : BulletPhysicsScene :=
  { s with collisionConfiguration := true, dispatcher := true,
           overlappingPairCache := true, constraintSolver := true,
           dynamicsWorld := true }

/-- Helper createGroundPlane, part_000 lines 249-289: allocates the ground
shape, motion state and rigid body and appends the ground entry; its model
field is set only when hasGroundModel (else the default Model, token 0). -/
def BulletPhysicsScene.createGroundPlane (s : BulletPhysicsScene) : BulletPhysicsScene :=
  { s with physicsObjects := s.physicsObjects ++
      [{ rigidBody := true, collisionShape := true, motionState := true,
         model := if s.hasGroundModel then s.groundModel else 0,
         hasModel := s.hasGroundModel, color := kDarkGreen }] }

/-- One falling box created in the loop body of createFallingBoxes, part_000
lines 305-358, identified by its boxIndex. -/
def makeFallingBox (env : RenderEnv) (boxIndex : Nat) : PhysicsObject :=
  { rigidBody := true, collisionShape := true, motionState := true,
    model := env.boxModel boxIndex, hasModel := env.boxModelValid boxIndex,
    color := env.colorFromHSV boxIndex }

/-- Helper createFallingBoxes, part_000 lines 291-360: kBoxCount = 10,
kGridSize = floor(sqrt(10)) = 3; the doubly nested loop guarded by
boxIndex < kBoxCount appends one box per iteration in row-major order, so
the appended boxes carry boxIndex 0 .. min(kGridSize^2, kBoxCount) - 1. -/
def BulletPhysicsScene.createFallingBoxes (env : RenderEnv) (s : BulletPhysicsScene) :
    BulletPhysicsScene :=
  { s with physicsObjects := s.physicsObjects ++
      (List.range (min (Nat.sqrt 10 * Nat.sqrt 10) 10)).map (makeFallingBox env) }

/-- Lifecycle call initialize of BulletPhysicsScene, part_000 lines 180-196
(named init here): no-op when already initialized, else load the ground
model, set up the world, create the ground plane and boxes, and set the
isInitialized guard last. -/
def BulletPhysicsScene.init (env : RenderEnv) (s : BulletPhysicsScene) :
    BulletPhysicsScene :=
  if s.isInitialized then s
  else
    let s1 := { s with groundModel := env.groundModel,
                       hasGroundModel := env.groundModelValid }
    let s2 := s1.setupPhysicsWorld
    let s3 := s2.createGroundPlane
    let s4 := s3.createFallingBoxes env
    { s4 with isInitialized := true }

/-- Helper cleanupPhysicsWorld, part_000 lines 433-483: deletes every rigid
body, motion state and collision shape, clears physicsObjects, and deletes
the five world components. -/
def BulletPhysicsScene.cleanupPhysicsWorld (s : BulletPhysicsScene) : BulletPhysicsScene :=
  { s with physicsObjects := [],
           dynamicsWorld := false, constraintSolver := false,
           overlappingPairCache := false, dispatcher := false,
           collisionConfiguration := false }

/-- Loop body of the model-unloading pass in cleanup, part_000 lines
207-212: UnloadModel is an engine call, so only the flag changes. -/
def unloadObjModel (o : PhysicsObject) : PhysicsObject :=
  if o.hasModel then { o with hasModel := false } else o

/-- Lifecycle call cleanup of BulletPhysicsScene, part_000 lines 198-221:
no-op when not initialized; else clear the guard first (re-entry guard),
unload the object models and the ground model, then tear down the world. -/
def BulletPhysicsScene.cleanup (s : BulletPhysicsScene) : BulletPhysicsScene :=
  if !s.isInitialized then s
  else
    let s1 := { s with isInitialized := false }
    let s2 := { s1 with physicsObjects := s1.physicsObjects.map unloadObjModel }
    let s3 := if s2.hasGroundModel then { s2 with hasGroundModel := false } else s2
    s3.cleanupPhysicsWorld

/-- Concrete environment for witnesses. -/
def env0 : RenderEnv :=
  { groundModel := 1, groundModelValid := true,
    boxModel := fun i => i + 2, boxModelValid := fun _ => true,
    colorFromHSV := fun i => i }

/-- Concrete uninitialized physics scene for witnesses. -/
def bps0 : BulletPhysicsScene :=
  { dynamicsWorld := false, dispatcher := false, overlappingPairCache := false,
    constraintSolver := false, collisionConfiguration := false,
    physicsObjects := [], groundModel := 0, hasGroundModel := false,
    isInitialized := false }

/-- Helper: when the stored current index is out of bounds, the cleanup
guard of part_000 line 111 is skipped and activation goes straight to the
init phase. -/
theorem activateScene_oldOOB {σ : Type} (ops : SceneOps σ) (m : SceneManager σ)
    (index : Nat) (hlt : index < m.scenes.length) (hne : index ≠ m.currentSceneIndex)
    (hoob : m.scenes.length ≤ m.currentSceneIndex) :
    activateScene ops m index =
      initPhase ops { m with currentSceneIndex := index } index [] := by
  unfold activateScene
  rw [if_neg (by omega), if_neg hne, List.get?_eq_none.2 hoob]

/-- Helper: when the init of the freshly activated scene faults and slot 0
is non-null, the init phase ends at index 0 having attempted init on the new
index and then on slot 0 (part_000 lines 132-146). -/
theorem initPhase_fault {σ : Type} (ops : SceneOps σ) (m : SceneManager σ)
    (index : Nat) (evs : List Ev) (sNew : σ)
    (hs : m.scenes.get? index = some (some sNew))
    (hf : (ops.init sNew).2 = true)
    (hi0 : index ≠ 0)
    (h0 : ∃ s0, m.scenes.get? 0 = some (some s0)) :
    (initPhase ops m index evs).1.currentSceneIndex = 0 ∧
    (initPhase ops m index evs).2 = evs ++ [Ev.initEv index, Ev.initEv 0] := by
  obtain ⟨s0, h0⟩ := h0
  have hlen : index < m.scenes.length := by
    by_contra hc
    rw [List.get?_eq_none.2 (by omega)] at hs
    exact Option.noConfusion hs
  unfold initPhase
  rw [hs]
  simp only [hf, if_true]
  have hne : (m.scenes.set index (some (ops.init sNew).1)).isEmpty = false := by
    have : 0 < (m.scenes.set index (some (ops.init sNew).1)).length := by
      rw [List.length_set]; omega
    cases hx : m.scenes.set index (some (ops.init sNew).1) <;> simp_all
  rw [hne]
  have h0set : (m.scenes.set index (some (ops.init sNew).1)).get? 0 =
      some (some s0) := by
    rw [List.get?_set_ne _ _ hi0, h0]
  simp only [if_false, Bool.false_eq_true, h0set]
  simp

/-- Helper: the init phase never changes the registry size. -/
theorem initPhase_len {σ : Type} (ops : SceneOps σ) (m : SceneManager σ)
    (index : Nat) (evs : List Ev) :
    (initPhase ops m index evs).1.scenes.length = m.scenes.length := by
  unfold initPhase
  split
  · dsimp only
    split
    · split
      · simp [List.length_set]
      · split <;> simp [List.length_set]
    · simp [List.length_set]
  · rfl

/-- Helper: the init phase keeps an in-bounds active index in bounds, on
every branch including the fault-recovery ones. -/
theorem initPhase_inv {σ : Type} (ops : SceneOps σ) (m : SceneManager σ)
    (index : Nat) (evs : List Ev)
    (h : m.currentSceneIndex < m.scenes.length) :
    (initPhase ops m index evs).1.currentSceneIndex <
      (initPhase ops m index evs).1.scenes.length := by
  unfold initPhase
  split
  · dsimp only
    split
    · split
      · simp_all [List.length_set]
      · split <;> simp_all [List.length_set] <;> omega
    · simp_all [List.length_set]
  · simpa using h

/-- Helper: with never-faulting init, the init phase leaves the active
index untouched. -/
theorem initPhase_noFault_cur {σ : Type} (ops : SceneOps σ) (m : SceneManager σ)
    (index : Nat) (evs : List Ev)
    (hnf : ∀ t, (ops.init t).2 = false) :
    (initPhase ops m index evs).1.currentSceneIndex = m.currentSceneIndex := by
  unfold initPhase
  split
  · dsimp only
    split
    · simp_all
    · rfl
  · rfl

/-- Helper: the init phase only appends init events to the trace it is
given, so any non-init event absent from the prefix stays absent. -/
theorem initPhase_trace_mem {σ : Type} (ops : SceneOps σ) (m : SceneManager σ)
    (index : Nat) (evs : List Ev) (e : Ev)
    (he : e ∉ evs) (hni : ∀ j, e ≠ Ev.initEv j) :
    e ∉ (initPhase ops m index evs).2 := by
  unfold initPhase
  split
  · dsimp only
    split
    · split
      · simp_all
      · split <;> simp_all
    · simp_all
  · simpa using he

/-- Helper: activation never changes the registry size. -/
theorem activateScene_len {σ : Type} (ops : SceneOps σ) (m : SceneManager σ)
    (index : Nat) :
    (activateScene ops m index).1.scenes.length = m.scenes.length := by
  unfold activateScene
  split
  · rfl
  · split
    · rfl
    · split
      · dsimp only
        split
        · simp [List.length_set]
        · rw [initPhase_len]; simp [List.length_set]
      · rw [initPhase_len]

/-- Helper: activation keeps an in-bounds active index in bounds, on every
branch including the two fault branches. -/
theorem activateScene_inv {σ : Type} (ops : SceneOps σ) (m : SceneManager σ)
    (index : Nat) (h : m.currentSceneIndex < m.scenes.length) :
    (activateScene ops m index).1.currentSceneIndex <
      (activateScene ops m index).1.scenes.length := by
  unfold activateScene
  split
  · exact h
  · split
    · exact h
    · rename_i hoob _
      split
      · dsimp only
        split
        · simpa [List.length_set] using h
        · apply initPhase_inv
          simpa [List.length_set] using Nat.lt_of_not_le (by omega)
      · apply initPhase_inv
        simpa using Nat.lt_of_not_le (by omega)

/-- Helper: with never-faulting lifecycle calls, activating an in-bounds
index makes it the active index. -/
theorem activateScene_noFault_cur {σ : Type} (ops : SceneOps σ) (m : SceneManager σ)
    (index : Nat)
    (hnfi : ∀ t, (ops.init t).2 = false) (hnfc : ∀ t, (ops.cleanup t).2 = false)
    (hlt : index < m.scenes.length) :
    (activateScene ops m index).1.currentSceneIndex = index := by
  unfold activateScene
  rw [if_neg (by omega)]
  split
  · rename_i heq; exact heq.symm
  · split
    · simp [hnfc, initPhase_noFault_cur _ _ _ _ hnfi]
    · simp [initPhase_noFault_cur _ _ _ _ hnfi]

/-- Helper: the trace of an activation holds only cleanup and init events,
so any other event is absent from it. -/
theorem activateScene_trace_mem {σ : Type} (ops : SceneOps σ) (m : SceneManager σ)
    (index : Nat) (e : Ev)
    (hni : ∀ j, e ≠ Ev.initEv j) (hnc : ∀ j, e ≠ Ev.cleanupEv j) :
    e ∉ (activateScene ops m index).2 := by
  unfold activateScene
  split
  · simp
  · split
    · simp
    · split
      · dsimp only
        split
        · simpa using hnc m.currentSceneIndex
        · exact initPhase_trace_mem _ _ _ _ _ (by simpa using hnc m.currentSceneIndex) hni
      · exact initPhase_trace_mem _ _ _ _ _ (by simp) hni

/-- Helper: switchToNextScene never changes the registry size. -/
theorem switchToNextScene_len {σ : Type} (ops : SceneOps σ) (m : SceneManager σ) :
    (switchToNextScene ops m).1.scenes.length = m.scenes.length := by
  unfold switchToNextScene
  split
  · rfl
  · dsimp only
    split <;> split <;> simp [activateScene_len]

/-- Helper: with never-faulting lifecycle calls and an in-bounds current
index, switchToNextScene advances the active index by one modulo the size. -/
theorem switchToNextScene_noFault_cur {σ : Type} (ops : SceneOps σ) (m : SceneManager σ)
    (hnfi : ∀ t, (ops.init t).2 = false) (hnfc : ∀ t, (ops.cleanup t).2 = false)
    (h0 : 0 < m.scenes.length) (hcur : m.currentSceneIndex < m.scenes.length) :
    (switchToNextScene ops m).1.currentSceneIndex =
      (m.currentSceneIndex + 1) % m.scenes.length := by
  have hmod : (m.currentSceneIndex + 1) % m.scenes.length < m.scenes.length :=
    Nat.mod_lt _ h0
  have hcc : ¬m.currentSceneIndex ≥ m.scenes.length := by omega
  unfold switchToNextScene
  rw [if_neg (by cases hl : m.scenes <;> simp_all)]
  dsimp only
  simp only [if_neg hcc]
  rw [if_neg (Nat.not_le.mpr hmod)]
  exact activateScene_noFault_cur _ _ _ hnfi hnfc (by simpa using hmod)

/-- Helper: with never-faulting lifecycle calls, after j calls of
switchToNextScene the registry size is unchanged and the active index is the
start index plus j, modulo the size. -/
theorem switchNextN_traj {σ : Type} (ops : SceneOps σ) (m : SceneManager σ)
    (hnfi : ∀ t, (ops.init t).2 = false) (hnfc : ∀ t, (ops.cleanup t).2 = false)
    (h0 : 0 < m.scenes.length) (hcur : m.currentSceneIndex < m.scenes.length) :
    ∀ j, (switchNextN ops m j).scenes.length = m.scenes.length ∧
      (switchNextN ops m j).currentSceneIndex =
        (m.currentSceneIndex + j) % m.scenes.length := by
  intro j
  induction j with
  | zero => exact ⟨rfl, by simpa using (Nat.mod_eq_of_lt hcur).symm⟩
  | succ n ih =>
      have hlen : (switchNextN ops m n).scenes.length = m.scenes.length := ih.1
      have hc : (switchNextN ops m n).currentSceneIndex <
          (switchNextN ops m n).scenes.length := by
        rw [hlen, ih.2]; exact Nat.mod_lt _ h0
      constructor
      · show (switchToNextScene ops (switchNextN ops m n)).1.scenes.length = _
        rw [switchToNextScene_len, hlen]
      · show (switchToNextScene ops (switchNextN ops m n)).1.currentSceneIndex = _
        rw [switchToNextScene_noFault_cur ops _ hnfi hnfc (by omega) hc, hlen, ih.2]
        conv_rhs => rw [show m.currentSceneIndex + (n + 1) =
          m.currentSceneIndex + n + 1 from rfl, Nat.add_mod (m.currentSceneIndex + n) 1]
        rw [Nat.add_mod ((m.currentSceneIndex + n) % m.scenes.length) 1]
        rw [Nat.mod_mod_of_dvd _ (dvd_refl _)]

/-- Helper: registering the first scene into a fresh controller reduces to
the init phase at index 0 on a one-slot registry (the sentinel index is out
of bounds, so no cleanup guard fires). -/
theorem registerFirst_eq {σ : Type} (ops : SceneOps σ) (s : σ) :
    registerScene ops (SceneManager.empty σ) (some s) =
      initPhase ops { scenes := [some s], currentSceneIndex := 0 } 0 [] := by
  unfold registerScene SceneManager.empty
  simp only [List.nil_append, List.length_cons, List.length_nil, if_pos rfl]
  have hk1 : (0 : Nat) ≠ kNoneIndex := by unfold kNoneIndex; norm_num
  have hk2 : (1 : Nat) ≤ kNoneIndex := by unfold kNoneIndex; norm_num
  have := activateScene_oldOOB ops
    { scenes := [some s], currentSceneIndex := kNoneIndex } 0
    (by simp) hk1 (by simpa using hk2)
  simpa using this

/-- Helper: registerScene preserves an in-bounds active index (with the
invariant holding, the registry is non-empty, so the size-one activation
branch of part_000 line 17 cannot fire). -/
theorem registerScene_inv {σ : Type} (ops : SceneOps σ) (m : SceneManager σ)
    (sc : Option σ) (h : m.currentSceneIndex < m.scenes.length) :
    (registerScene ops m sc).1.currentSceneIndex <
      (registerScene ops m sc).1.scenes.length := by
  unfold registerScene
  cases sc with
  | none => exact h
  | some s =>
      dsimp only
      rw [if_neg (by simp only [List.length_append, List.length_cons,
        List.length_nil]; omega)]
      simp only [List.length_append, List.length_cons, List.length_nil]
      omega

/-- Helper: switchToScene preserves an in-bounds active index. -/
theorem switchToScene_inv {σ : Type} (ops : SceneOps σ) (m : SceneManager σ)
    (i : Nat) (h : m.currentSceneIndex < m.scenes.length) :
    (switchToScene ops m i).1.currentSceneIndex <
      (switchToScene ops m i).1.scenes.length := by
  unfold switchToScene
  split
  · exact h
  · exact activateScene_inv ops m i h

/-- Helper: switchToPreviousScene preserves an in-bounds active index. -/
theorem switchToPreviousScene_inv {σ : Type} (ops : SceneOps σ) (m : SceneManager σ)
    (h : m.currentSceneIndex < m.scenes.length) :
    (switchToPreviousScene ops m).1.currentSceneIndex <
      (switchToPreviousScene ops m).1.scenes.length := by
  unfold switchToPreviousScene
  split
  · exact h
  · exact activateScene_inv ops m _ h

/-- Helper: switchToNextScene preserves an in-bounds active index. -/
theorem switchToNextScene_inv {σ : Type} (ops : SceneOps σ) (m : SceneManager σ)
    (h : m.currentSceneIndex < m.scenes.length) :
    (switchToNextScene ops m).1.currentSceneIndex <
      (switchToNextScene ops m).1.scenes.length := by
  unfold switchToNextScene
  split
  · exact h
  · dsimp only
    split <;> split <;> exact activateScene_inv ops _ _ (by dsimp only; omega)

/-- Helper: update preserves an in-bounds active index. -/
theorem updateManager_inv {σ : Type} (ops : SceneOps σ) (m : SceneManager σ)
    (h : m.currentSceneIndex < m.scenes.length) :
    (updateManager ops m).currentSceneIndex < (updateManager ops m).scenes.length := by
  unfold updateManager
  split
  · exact h
  · split
    · simpa [List.length_set] using h
    · exact h

/-- Helper: with an in-bounds current index, the defensive reset branch of
switchToNextScene (part_000 lines 36-40) is not taken: no resetEv appears. -/
theorem switchToNextScene_no_reset {σ : Type} (ops : SceneOps σ) (m : SceneManager σ)
    (h : m.currentSceneIndex < m.scenes.length) :
    Ev.resetEv ∉ (switchToNextScene ops m).2 := by
  have hcc : ¬m.currentSceneIndex ≥ m.scenes.length := by omega
  unfold switchToNextScene
  split
  · simp
  · dsimp only
    split
    · simp only [List.nil_append, List.cons_append, List.mem_cons]
      push_neg
      exact ⟨by simp, by simpa using
        activateScene_trace_mem ops _ 0 Ev.resetEv (by simp) (by simp)⟩
    · simpa using activateScene_trace_mem ops _ _ Ev.resetEv (by simp) (by simp)

/-- Claim C1: if, during a transition to a valid index k different from 0 and
from the current index in a registry of size at least 1 (slot 0 non-null, as
every registered scene is), the old scene's cleanup does not fault but the
new scene's init raises a fault, then the controller ends with active index 0
and init was attempted both on scene k and on scene 0; this holds whether or
not the secondary init on scene 0 faults in turn, and no exception reaches
the caller (the embedded operation is a total function). -/
theorem claim_C1 {σ : Type} (ops : SceneOps σ) (m : SceneManager σ) (k : Nat) (sk : σ)
    (hlt : k < m.scenes.length) (hne : k ≠ m.currentSceneIndex) (hk0 : k ≠ 0)
    (hclean : ∀ s, m.scenes.get? m.currentSceneIndex = some (some s) →
      (ops.cleanup s).2 = false)
    (hsk : m.scenes.get? k = some (some sk))
    (hfault : (ops.init sk).2 = true)
    (h0 : ∃ s0, m.scenes.get? 0 = some (some s0)) :
    (activateScene ops m k).1.currentSceneIndex = 0 ∧
    Ev.initEv k ∈ (activateScene ops m k).2 ∧
    Ev.initEv 0 ∈ (activateScene ops m k).2 := by
  obtain ⟨s0, h0⟩ := h0
  unfold activateScene
  rw [if_neg (by omega), if_neg hne]
  cases hcur : m.scenes.get? m.currentSceneIndex with
  | none =>
      have h := initPhase_fault ops { m with currentSceneIndex := k } k [] sk
        hsk hfault hk0 ⟨s0, h0⟩
      simp only []
      exact ⟨h.1, by rw [h.2]; simp, by rw [h.2]; simp⟩
  | some o =>
      cases o with
      | none =>
          have h := initPhase_fault ops { m with currentSceneIndex := k } k [] sk
            hsk hfault hk0 ⟨s0, h0⟩
          simp only []
          exact ⟨h.1, by rw [h.2]; simp, by rw [h.2]; simp⟩
      | some sOld =>
          have hc := hclean sOld hcur
          simp only [hc, Bool.false_eq_true, if_false]
          have hs2 : ((m.scenes.set m.currentSceneIndex (some (ops.cleanup sOld).1)).get? k)
              = some (some sk) := by
            rw [List.get?_set_ne _ _ (Ne.symm hne), hsk]
          have h02 : ∃ t, ((m.scenes.set m.currentSceneIndex
              (some (ops.cleanup sOld).1)).get? 0) = some (some t) := by
            by_cases hc0 : m.currentSceneIndex = 0
            · refine ⟨(ops.cleanup sOld).1, ?_⟩
              rw [hc0, List.get?_set_eq_of_lt]
              rw [hc0] at hcur
              by_contra hx
              rw [List.get?_eq_none.2 (by omega)] at hcur
              exact Option.noConfusion hcur
            · exact ⟨s0, by rw [List.get?_set_ne _ _ (fun hx => hc0 hx), h0]⟩
          have h := initPhase_fault ops
            { m with scenes := m.scenes.set m.currentSceneIndex (some (ops.cleanup sOld).1),
                     currentSceneIndex := k } k [Ev.cleanupEv m.currentSceneIndex] sk
            hs2 hfault hk0 h02
          exact ⟨h.1, by rw [h.2]; simp, by rw [h.2]; simp⟩

/-- Witness for C1: two unit scenes whose init always faults; activating
index 1 from index 0 ends at index 0, with init attempted on 1 and on 0. -/
theorem claim_C1_witness :
    (activateScene badInitOps mgr2 1).1.currentSceneIndex = 0 ∧
    Ev.initEv 1 ∈ (activateScene badInitOps mgr2 1).2 ∧
    Ev.initEv 0 ∈ (activateScene badInitOps mgr2 1).2 :=
  claim_C1 badInitOps mgr2 1 () (by decide) (by decide) (by decide)
    (fun s _ => rfl) rfl rfl ⟨(), rfl⟩

/-- Claim C2: if, during a transition to a valid index different from the
current one, the currently active scene's cleanup raises a fault, the fault
is caught (the embedded operation is total, so nothing propagates), the
transition is aborted with the active index and registry size unchanged, and
the trace is exactly the one cleanup call: no init is invoked on any scene. -/
theorem claim_C2 {σ : Type} (ops : SceneOps σ) (m : SceneManager σ) (index : Nat) (sOld : σ)
    (hlt : index < m.scenes.length) (hne : index ≠ m.currentSceneIndex)
    (hold : m.scenes.get? m.currentSceneIndex = some (some sOld))
    (hfault : (ops.cleanup sOld).2 = true) :
    (activateScene ops m index).1.currentSceneIndex = m.currentSceneIndex ∧
    (activateScene ops m index).1.scenes.length = m.scenes.length ∧
    (activateScene ops m index).2 = [Ev.cleanupEv m.currentSceneIndex] ∧
    (∀ i, Ev.initEv i ∉ (activateScene ops m index).2) := by
  unfold activateScene
  rw [if_neg (by omega), if_neg hne, hold]
  simp [hfault]

/-- Witness for C2: two unit scenes whose cleanup always faults; switching
from index 0 to index 1 aborts, leaving the index at 0 with only the cleanup
call in the trace. -/
theorem claim_C2_witness :
    (activateScene badCleanupOps mgr2 1).1.currentSceneIndex = mgr2.currentSceneIndex ∧
    (activateScene badCleanupOps mgr2 1).1.scenes.length = mgr2.scenes.length ∧
    (activateScene badCleanupOps mgr2 1).2 = [Ev.cleanupEv mgr2.currentSceneIndex] ∧
    (∀ i, Ev.initEv i ∉ (activateScene badCleanupOps mgr2 1).2) :=
  claim_C2 badCleanupOps mgr2 1 () (by decide) (by decide) rfl rfl

/-- Claim C3: starting from the empty controller, registering exactly one
non-null scene leaves the controller active at index 0 over a one-slot
registry, with a current scene present and init invoked on it (the first
registration runs the full activation procedure); when that init does not
fault, getCurrentScene returns precisely the registered scene in its
post-init state. -/
theorem claim_C3 {σ : Type} (ops : SceneOps σ) (s : σ) :
    (registerScene ops (SceneManager.empty σ) (some s)).1.currentSceneIndex = 0 ∧
    (registerScene ops (SceneManager.empty σ) (some s)).1.scenes.length = 1 ∧
    (getCurrentScene (registerScene ops (SceneManager.empty σ) (some s)).1).isSome ∧
    Ev.initEv 0 ∈ (registerScene ops (SceneManager.empty σ) (some s)).2 ∧
    ((ops.init s).2 = false →
      getCurrentScene (registerScene ops (SceneManager.empty σ) (some s)).1 =
        some (ops.init s).1) := by
  rw [registerFirst_eq]
  unfold initPhase
  simp only [List.get?]
  by_cases hf : (ops.init s).2
  · simp [hf, getCurrentScene, List.set]
  · simp [hf, getCurrentScene, List.set]

/-- Claim C4: switchToPreviousScene is a no-op exactly on an empty registry;
on a non-empty registry it always invokes the activation procedure on
size - 1 when the current index is 0 and on current - 1 otherwise. -/
theorem claim_C4 {σ : Type} (ops : SceneOps σ) (m : SceneManager σ) :
    (m.scenes = [] → switchToPreviousScene ops m = (m, [])) ∧
    (m.scenes ≠ [] → switchToPreviousScene ops m =
      activateScene ops m
        (if m.currentSceneIndex = 0 then m.scenes.length - 1
         else m.currentSceneIndex - 1)) := by
  constructor
  · intro h
    unfold switchToPreviousScene
    simp [h]
  · intro h
    unfold switchToPreviousScene
    simp [h, List.isEmpty_iff]

/-- Witness for C4: on a two-scene registry with current index 0, the
previous index is 1 and switchToPreviousScene is that activation. -/
theorem claim_C4_witness :
    switchToPreviousScene okOps mgr2 = activateScene okOps mgr2
      (if mgr2.currentSceneIndex = 0 then mgr2.scenes.length - 1
       else mgr2.currentSceneIndex - 1) :=
  (claim_C4 okOps mgr2).2 (by decide)

/-- Claim C5: on a registry of N at least 1 scenes whose cleanup and init
never fault, starting from any in-bounds active index, N calls of
switchToNextScene return to the original active index, and every call
advances the active index by exactly one position modulo N. -/
theorem claim_C5 {σ : Type} (ops : SceneOps σ) (m : SceneManager σ)
    (hnfi : ∀ t, (ops.init t).2 = false) (hnfc : ∀ t, (ops.cleanup t).2 = false)
    (h0 : 1 ≤ m.scenes.length) (hcur : m.currentSceneIndex < m.scenes.length) :
    (switchNextN ops m m.scenes.length).currentSceneIndex = m.currentSceneIndex ∧
    ∀ j, (switchNextN ops m (j + 1)).currentSceneIndex =
      ((switchNextN ops m j).currentSceneIndex + 1) % m.scenes.length := by
  have traj := switchNextN_traj ops m hnfi hnfc (by omega) hcur
  constructor
  · rw [(traj m.scenes.length).2, Nat.add_mod_right, Nat.mod_eq_of_lt hcur]
  · intro j
    have hlen : (switchNextN ops m j).scenes.length = m.scenes.length := (traj j).1
    have hc : (switchNextN ops m j).currentSceneIndex <
        (switchNextN ops m j).scenes.length := by
      rw [hlen, (traj j).2]; exact Nat.mod_lt _ (by omega)
    show (switchToNextScene ops (switchNextN ops m j)).1.currentSceneIndex = _
    rw [switchToNextScene_noFault_cur ops _ hnfi hnfc (by omega) hc, hlen]

/-- Witness for C5: two never-faulting unit scenes from index 0: two calls
return to index 0, and the first call advances by one modulo 2. -/
theorem claim_C5_witness :
    (switchNextN okOps mgr2 mgr2.scenes.length).currentSceneIndex =
      mgr2.currentSceneIndex ∧
    (switchNextN okOps mgr2 1).currentSceneIndex =
      ((switchNextN okOps mgr2 0).currentSceneIndex + 1) % mgr2.scenes.length := by
  have h := claim_C5 okOps mgr2 (fun t => rfl) (fun t => rfl) (by decide) (by decide)
  exact ⟨h.1, h.2 0⟩

/-- Claim C6: switchToScene with an index at least the registry size is a
no-op: the state (hence active index and scene identities) is unchanged and
the trace is empty, so no lifecycle call is invoked on any scene and the
caller error is not escalated. -/
theorem claim_C6 {σ : Type} (ops : SceneOps σ) (m : SceneManager σ) (index : Nat)
    (h : m.scenes.length ≤ index) :
    switchToScene ops m index = (m, []) := by
  unfold switchToScene
  simp [h]

/-- Witness for C6: index 5 on a two-scene registry is silently ignored. -/
theorem claim_C6_witness : switchToScene okOps mgr2 5 = (mgr2, []) :=
  claim_C6 okOps mgr2 5 (by decide)

/-- Claim C7: requesting activation of the index that is already active is a
no-op: the controller state is returned unchanged with an empty trace, so
neither cleanup nor init is invoked on any scene (this also covers the case
of an out-of-bounds stored index, where the bounds guard fires first). -/
theorem claim_C7 {σ : Type} (ops : SceneOps σ) (m : SceneManager σ) :
    activateScene ops m m.currentSceneIndex = (m, []) := by
  unfold activateScene
  split
  · rfl
  · simp

/-- Claim C8: the lifecycle operations of BulletPhysicsScene are idempotent:
init on an already-initialized scene is a no-op, so two consecutive inits
equal one; cleanup on an uninitialized scene is a no-op, so two consecutive
cleanups equal one. -/
theorem claim_C8 (env : RenderEnv) (s : BulletPhysicsScene) :
    (s.isInitialized = true → BulletPhysicsScene.init env s = s) ∧
    BulletPhysicsScene.init env (BulletPhysicsScene.init env s) =
      BulletPhysicsScene.init env s ∧
    (s.isInitialized = false → BulletPhysicsScene.cleanup s = s) ∧
    BulletPhysicsScene.cleanup (BulletPhysicsScene.cleanup s) =
      BulletPhysicsScene.cleanup s := by
  refine ⟨?_, ?_, ?_, ?_⟩
  · intro h
    simp [BulletPhysicsScene.init, h]
  · by_cases h : s.isInitialized
    · simp [BulletPhysicsScene.init, h]
    · simp only [BulletPhysicsScene.init, h, if_false]
      simp
  · intro h
    simp [BulletPhysicsScene.cleanup, h]
  · by_cases h : s.isInitialized
    · simp only [BulletPhysicsScene.cleanup, h]
      simp [BulletPhysicsScene.cleanupPhysicsWorld]
      split <;> simp
    · simp [BulletPhysicsScene.cleanup, h]

/-- Witness for C8: the concrete uninitialized scene; cleanup twice equals
cleanup once, and cleanup on the uninitialized scene is the identity. -/
theorem claim_C8_witness :
    BulletPhysicsScene.cleanup (BulletPhysicsScene.cleanup bps0) =
      BulletPhysicsScene.cleanup bps0 ∧
    BulletPhysicsScene.cleanup bps0 = bps0 := by
  have h := claim_C8 env0 bps0
  exact ⟨h.2.2.2, h.2.2.1 rfl⟩

/-- Claim C9 (implicit invariant): the bounds invariant currentSceneIndex
less than registry size is established by the first non-null registration
from the empty controller and preserved by every public operation from any
state satisfying it - registerScene, switchToScene, switchToNextScene,
switchToPreviousScene, the activation procedure itself on any index
(including both fault branches), and update - and under the invariant the
defensive out-of-bounds reset in switchToNextScene is never taken. -/
theorem claim_C9 {σ : Type} (ops : SceneOps σ) (s : σ) (sc : Option σ)
    (m : SceneManager σ) (i : Nat)
    (h : m.currentSceneIndex < m.scenes.length) :
    (registerScene ops (SceneManager.empty σ) (some s)).1.currentSceneIndex <
      (registerScene ops (SceneManager.empty σ) (some s)).1.scenes.length ∧
    (registerScene ops m sc).1.currentSceneIndex <
      (registerScene ops m sc).1.scenes.length ∧
    (switchToScene ops m i).1.currentSceneIndex <
      (switchToScene ops m i).1.scenes.length ∧
    (switchToNextScene ops m).1.currentSceneIndex <
      (switchToNextScene ops m).1.scenes.length ∧
    (switchToPreviousScene ops m).1.currentSceneIndex <
      (switchToPreviousScene ops m).1.scenes.length ∧
    (activateScene ops m i).1.currentSceneIndex <
      (activateScene ops m i).1.scenes.length ∧
    (updateManager ops m).currentSceneIndex < (updateManager ops m).scenes.length ∧
    Ev.resetEv ∉ (switchToNextScene ops m).2 := by
  refine ⟨?_, registerScene_inv ops m sc h, switchToScene_inv ops m i h,
    switchToNextScene_inv ops m h, switchToPreviousScene_inv ops m h,
    activateScene_inv ops m i h, updateManager_inv ops m h,
    switchToNextScene_no_reset ops m h⟩
  rw [registerFirst_eq]
  exact initPhase_inv ops _ 0 [] (by simp)

/-- Witness for C9: a one-scene controller at index 0 satisfies the
invariant; update preserves it and switchToNextScene emits no reset. -/
theorem claim_C9_witness :
    (updateManager okOps mgr1).currentSceneIndex <
      (updateManager okOps mgr1).scenes.length ∧
    Ev.resetEv ∉ (switchToNextScene okOps mgr1).2 := by
  have h := claim_C9 okOps () (some ()) mgr1 0 (by decide)
  exact ⟨h.2.2.2.2.2.2.1, h.2.2.2.2.2.2.2⟩

/-- Claim C10 (implicit safety): on a non-empty registry the next index
computed by switchToNextScene - (clamped current + 1) mod size - is always
strictly below the registry size, so the secondary error branch that forces
activation of index 0 is unreachable: no forceZeroEv is ever emitted. -/
theorem claim_C10 {σ : Type} (ops : SceneOps σ) (m : SceneManager σ)
    (h : m.scenes ≠ []) :
    ((if m.currentSceneIndex ≥ m.scenes.length then 0 else m.currentSceneIndex) + 1)
        % m.scenes.length < m.scenes.length ∧
    Ev.forceZeroEv ∉ (switchToNextScene ops m).2 := by
  have hpos : 0 < m.scenes.length := List.length_pos.mpr h
  have hlt : ∀ c : Nat, (c + 1) % m.scenes.length < m.scenes.length :=
    fun c => Nat.mod_lt _ hpos
  refine ⟨hlt _, ?_⟩
  unfold switchToNextScene
  split
  · simp
  · dsimp only
    split
    · rw [if_neg (Nat.not_le.mpr (hlt _))]
      simp only [List.cons_append, List.nil_append, List.mem_cons]
      push_neg
      exact ⟨by simp, by simpa using
        activateScene_trace_mem ops _ _ Ev.forceZeroEv (by simp) (by simp)⟩
    · rw [if_neg (Nat.not_le.mpr (hlt _))]
      simpa using activateScene_trace_mem ops _ _ Ev.forceZeroEv (by simp) (by simp)

/-- Witness for C10: on the one-scene registry the computed next index is in
bounds and no forced-zero event is emitted. -/
theorem claim_C10_witness :
    ((if mgr1.currentSceneIndex ≥ mgr1.scenes.length then 0
      else mgr1.currentSceneIndex) + 1) % mgr1.scenes.length < mgr1.scenes.length ∧
    Ev.forceZeroEv ∉ (switchToNextScene okOps mgr1).2 :=
  claim_C10 okOps mgr1 (by decide)

/-- Witness for C3: registering one never-faulting unit scene into the empty
controller makes index 0 current with that scene returned by
getCurrentScene. -/
theorem claim_C3_witness :
    (registerScene okOps (SceneManager.empty Unit) (some ())).1.currentSceneIndex = 0 ∧
    getCurrentScene (registerScene okOps (SceneManager.empty Unit) (some ())).1 =
      some (okOps.init ()).1 := by
  have h := claim_C3 okOps ()
  exact ⟨h.1, h.2.2.2.2 rfl⟩
